import Mathlib

/-!
Formal model of the network emulation layer of the teleop repository
(src/communication/network.py): NetworkChannel, a simulated unidirectional
link with configurable latency, jitter and packet loss, and
NetworkSimulator, the bidirectional link pair with command/state
destination queues.

Times and rates are rationals.  The random draws the code makes — the loss
roll from random.random() and the jitter offset from
random.uniform(-jitter/2, jitter/2) — are explicit parameters; theorems
that need them in range take that as a hypothesis.  The Python
queue.PriorityQueue stores tuples (delivery_time, (data, callback)) and
orders them lexicographically; we model the pending set as a list kept
sorted by that lexicographic order (put = ordered insert, peek = head,
get = pop head), with a natural number standing in for the (data, callback)
pair and the order on ℕ standing in for Python comparison of those pairs.
-/

/-- An entry of the channel priority queue: the code puts the pair
(delivery_time, (data, callback)); a ℕ payload stands in for the
(data, callback) component. -/
abbrev Entry : Type := ℚ × ℕ

/-- The lexicographic order Python uses to compare queue entries:
first the delivery time, then the (data, callback) component. -/
def entryLE (a b : Entry) : Prop :=
  a.1 < b.1 ∨ (a.1 = b.1 ∧ a.2 ≤ b.2)

instance (a b : Entry) : Decidable (entryLE a b) := by
  unfold entryLE; infer_instance

/-- queue.put on the (sorted-list model of the) priority queue:
insert before the first entry it is ≤. -/
def heapPut (e : Entry) : List Entry → List Entry
  | [] => [e]
  | x :: xs => if entryLE e x then e :: x :: xs else x :: heapPut e xs

/-- State of one NetworkChannel: the pending priority queue, the four
condition fields and the running flag.  bandwidth none models the
initial float(\x27inf\x27). -/
@[ext]
structure NetworkChannel where
  pending : List Entry
  latency : ℚ
  jitter : ℚ
  packet_loss : ℚ
  bandwidth : Option ℚ
  running : Bool
deriving DecidableEq

/-- NetworkChannel.__init__: empty queue, zero latency/jitter/loss,
unbounded bandwidth, not running. -/
def NetworkChannel.init : NetworkChannel :=
  { pending := [], latency := 0, jitter := 0, packet_loss := 0,
    bandwidth := none, running := false }

/-- NetworkChannel.start: set running and launch the worker thread. -/
def NetworkChannel.start (ch : NetworkChannel) : NetworkChannel :=
  { ch with running := true }

/-- NetworkChannel.stop: clear running; thread.join() guarantees the worker
has exited before stop returns. -/
def NetworkChannel.stop (ch : NetworkChannel) : NetworkChannel :=
  { ch with running := false }

/-- NetworkChannel.set_conditions: clamp and store all four fields. -/
def NetworkChannel.set_conditions (ch : NetworkChannel)
    (latency jitter packet_loss bandwidth : ℚ) : NetworkChannel :=
  { ch with
    latency := max 0 latency
    jitter := max 0 jitter
    packet_loss := max 0 (min 1 packet_loss)
    bandwidth := some (max 0 bandwidth) }

/-- The delivery time NetworkChannel.send computes:
delivery_time = time.time() + self.latency, plus the uniform jitter draw
when self.jitter > 0.  There is no clamping in the code. -/
def NetworkChannel.deliveryTime (ch : NetworkChannel) (now jitterDraw : ℚ) : ℚ :=
  now + ch.latency + (if 0 < ch.jitter then jitterDraw else 0)

/-- NetworkChannel.send: drop when the loss roll hits
(random.random() < self.packet_loss), otherwise put
(delivery_time, payload) on the priority queue.  The code does not check
self.running here. -/
def NetworkChannel.send (ch : NetworkChannel) (now lossDraw jitterDraw : ℚ)
    (payload : ℕ) : NetworkChannel :=
  if lossDraw < ch.packet_loss then ch
  else { ch with
         pending := heapPut (ch.deliveryTime now jitterDraw, payload) ch.pending }

/-- One iteration of the NetworkChannel worker loop (the body of
_process_queue): if running, peek the head of the queue; when its delivery
time has passed, pop it and invoke the sink callback, which appends the
payload to the destination queue when it succeeds; a sink exception is
caught by the except clause after the envelope was already removed, so the
payload is lost but the loop continues. -/
def NetworkChannel.processStep (ch : NetworkChannel) (dest : List ℕ)
    (now : ℚ) (sinkOk : ℕ → Bool) : NetworkChannel × List ℕ :=
  if ch.running then
    match ch.pending with
    | [] => (ch, dest)
    | (dt, p) :: rest =>
      if dt ≤ now then
        if sinkOk p then ({ ch with pending := rest }, dest ++ [p])
        else ({ ch with pending := rest }, dest)
      else (ch, dest)
  else (ch, dest)

/-- Iterate the worker loop body a given number of times at a fixed clock
reading. -/
def NetworkChannel.processMany (ch : NetworkChannel) (dest : List ℕ)
    (now : ℚ) (sinkOk : ℕ → Bool) : ℕ → NetworkChannel × List ℕ
  | 0 => (ch, dest)
  | n + 1 =>
    let r := ch.processStep dest now sinkOk
    r.1.processMany r.2 now sinkOk n

/-- State of the NetworkSimulator: the two channels and the two
destination queues (FIFO lists: the sink appends at the tail, receive pops
the head). -/
@[ext]
structure NetworkSimulator where
  operator_to_robot : NetworkChannel
  robot_to_operator : NetworkChannel
  command_queue : List ℕ
  state_queue : List ℕ
deriving DecidableEq

/-- NetworkSimulator.__init__: two fresh channels, both started, empty
destination queues. -/
def NetworkSimulator.init : NetworkSimulator :=
  { operator_to_robot := NetworkChannel.init.start
    robot_to_operator := NetworkChannel.init.start
    command_queue := []
    state_queue := [] }

/-- NetworkSimulator.set_network_conditions: jitter is derived as 10% of
latency and identical conditions are applied to both channels. -/
def NetworkSimulator.set_network_conditions (sim : NetworkSimulator)
    (latency packet_loss bandwidth : ℚ) : NetworkSimulator :=
  { sim with
    operator_to_robot :=
      sim.operator_to_robot.set_conditions latency (latency / 10) packet_loss bandwidth
    robot_to_operator :=
      sim.robot_to_operator.set_conditions latency (latency / 10) packet_loss bandwidth }

/-- NetworkSimulator.send_command: send on the operator→robot channel; the
callback (modelled in the worker step) appends to command_queue. -/
def NetworkSimulator.send_command (sim : NetworkSimulator)
    (now lossDraw jitterDraw : ℚ) (payload : ℕ) : NetworkSimulator :=
  { sim with
    operator_to_robot := sim.operator_to_robot.send now lossDraw jitterDraw payload }

/-- NetworkSimulator.send_state: send on the robot→operator channel. -/
def NetworkSimulator.send_state (sim : NetworkSimulator)
    (now lossDraw jitterDraw : ℚ) (payload : ℕ) : NetworkSimulator :=
  { sim with
    robot_to_operator := sim.robot_to_operator.send now lossDraw jitterDraw payload }

/-- One worker iteration on the operator→robot channel; the command
callback always succeeds (queue.Queue.put does not raise). -/
def NetworkSimulator.stepCommandWorker (sim : NetworkSimulator) (now : ℚ) :
    NetworkSimulator :=
  let r := sim.operator_to_robot.processStep sim.command_queue now (fun _ => true)
  { sim with operator_to_robot := r.1, command_queue := r.2 }

/-- One worker iteration on the robot→operator channel. -/
def NetworkSimulator.stepStateWorker (sim : NetworkSimulator) (now : ℚ) :
    NetworkSimulator :=
  let r := sim.robot_to_operator.processStep sim.state_queue now (fun _ => true)
  { sim with robot_to_operator := r.1, state_queue := r.2 }

/-- NetworkSimulator.receive_command: command_queue.get_nowait(), returning
None when the queue is empty. -/
def NetworkSimulator.receive_command (sim : NetworkSimulator) :
    Option ℕ × NetworkSimulator :=
  match sim.command_queue with
  | [] => (none, sim)
  | c :: rest => (some c, { sim with command_queue := rest })

/-- NetworkSimulator.receive_state: state_queue.get_nowait(), returning
None when the queue is empty. -/
def NetworkSimulator.receive_state (sim : NetworkSimulator) :
    Option ℕ × NetworkSimulator :=
  match sim.state_queue with
  | [] => (none, sim)
  | s :: rest => (some s, { sim with state_queue := rest })

/-- NetworkSimulator.shutdown: stop both channels.  Nothing else changes;
the destination queues keep their contents. -/
def NetworkSimulator.shutdown (sim : NetworkSimulator) : NetworkSimulator :=
  { sim with
    operator_to_robot := sim.operator_to_robot.stop
    robot_to_operator := sim.robot_to_operator.stop }

/-- The operations one can perform against a NetworkSimulator, with the
clock readings and random draws they consume made explicit. -/
inductive Op where
  | sendCommand (now lossDraw jitterDraw : ℚ) (payload : ℕ)
  | sendState (now lossDraw jitterDraw : ℚ) (payload : ℕ)
  | workCommand (now : ℚ)
  | workState (now : ℚ)
  | receiveCommand
  | receiveState
  | setNetworkConditions (latency packet_loss bandwidth : ℚ)
  | shutdown
deriving DecidableEq

/-- Execute one operation; receives produce an observable output. -/
def stepOp (sim : NetworkSimulator) : Op → NetworkSimulator × Option ℕ
  | .sendCommand now ld jd p => (sim.send_command now ld jd p, none)
  | .sendState now ld jd p => (sim.send_state now ld jd p, none)
  | .workCommand now => (sim.stepCommandWorker now, none)
  | .workState now => (sim.stepStateWorker now, none)
  | .receiveCommand => ((sim.receive_command).2, (sim.receive_command).1)
  | .receiveState => ((sim.receive_state).2, (sim.receive_state).1)
  | .setNetworkConditions l pl bw => (sim.set_network_conditions l pl bw, none)
  | .shutdown => (sim.shutdown, none)

/-- Run a list of operations, collecting the outputs of the receives. -/
def runOps (sim : NetworkSimulator) : List Op → NetworkSimulator × List (Option ℕ)
  | [] => (sim, [])
  | o :: os =>
    let r := stepOp sim o
    let rest := runOps r.1 os
    (rest.1, r.2 :: rest.2)

/-- The valid-range predicate on a stored bandwidth value; none is the
unbounded initial value. -/
def bwValid : Option ℚ → Prop
  | none => True
  | some b => 0 ≤ b

/-- The valid-range invariant on the condition fields of a channel. -/
def validConditions (ch : NetworkChannel) : Prop :=
  0 ≤ ch.latency ∧ 0 ≤ ch.jitter ∧
    0 ≤ ch.packet_loss ∧ ch.packet_loss ≤ 1 ∧ bwValid ch.bandwidth

/-- A fresh channel satisfies the valid-range invariant. -/
theorem init_validConditions : validConditions NetworkChannel.init := by
  refine ⟨le_refl 0, le_refl 0, le_refl 0, ?_, trivial⟩
  norm_num [NetworkChannel.init]

/-- C5: set_conditions clamps every argument into range (latency ≥ 0,
jitter ≥ 0, loss ∈ [0,1], bandwidth ≥ 0) for arbitrary inputs and raises
no error (it is a total function); no other operation touches the
condition fields, so the valid-range predicate is an invariant preserved
by every operation. -/
theorem c5_set_conditions_clamps :
    (∀ ch l j pl bw, validConditions (NetworkChannel.set_conditions ch l j pl bw))
    ∧ (∀ ch now ld jd p, validConditions ch →
        validConditions (NetworkChannel.send ch now ld jd p))
    ∧ (∀ ch dest now cb, validConditions ch →
        validConditions (NetworkChannel.processStep ch dest now cb).1)
    ∧ (∀ ch : NetworkChannel, validConditions ch → validConditions ch.start)
    ∧ (∀ ch : NetworkChannel, validConditions ch → validConditions ch.stop) := by
  refine ⟨?_, ?_, ?_, ?_, ?_⟩
  · intro ch l j pl bw
    exact ⟨le_max_left 0 l, le_max_left 0 j, le_max_left _ _,
      max_le zero_le_one (min_le_left 1 pl), le_max_left 0 bw⟩
  · intro ch now ld jd p h
    unfold NetworkChannel.send
    split
    · exact h
    · exact h
  · intro ch dest now cb h
    unfold NetworkChannel.processStep
    split
    · split
      · exact h
      · split
        · split
          · exact h
          · exact h
        · exact h
    · exact h
  · intro ch h; exact h
  · intro ch h; exact h

/-- Witness for C5 at concrete out-of-range inputs: clamping a negative
latency, an over-range loss and a negative bandwidth lands in range, and
a send on the result keeps it there. -/
theorem c5_set_conditions_clamps_witness :
    validConditions (NetworkChannel.set_conditions NetworkChannel.init (-3) (-1) 2 (-5))
    ∧ validConditions
        ((NetworkChannel.set_conditions NetworkChannel.init (-3) (-1) 2 (-5)).send 0 0 0 4) :=
  ⟨c5_set_conditions_clamps.1 NetworkChannel.init (-3) (-1) 2 (-5),
   c5_set_conditions_clamps.2.1 _ 0 0 0 4
     (c5_set_conditions_clamps.1 NetworkChannel.init (-3) (-1) 2 (-5))⟩

/-- C6: the receives are non-blocking total functions: on an empty
destination queue they return the explicit no-message result None and
leave the simulator unchanged; otherwise they pop and return the head of
the queue, which is the oldest entry since the sink run by the worker only ever
appends delivered payloads at the tail (last conjunct). -/
theorem c6_receive_nonblocking :
    ∀ sim : NetworkSimulator,
      (sim.command_queue = [] → sim.receive_command = (none, sim))
      ∧ (∀ c rest, sim.command_queue = c :: rest →
          sim.receive_command = (some c, { sim with command_queue := rest }))
      ∧ (sim.state_queue = [] → sim.receive_state = (none, sim))
      ∧ (∀ s rest, sim.state_queue = s :: rest →
          sim.receive_state = (some s, { sim with state_queue := rest }))
      ∧ (∀ ch dest now cb, (NetworkChannel.processStep ch dest now cb).2 = dest
          ∨ ∃ p, (NetworkChannel.processStep ch dest now cb).2 = dest ++ [p]) := by
  intro sim
  refine ⟨?_, ?_, ?_, ?_, ?_⟩
  · intro h; unfold NetworkSimulator.receive_command; rw [h]
  · intro c rest h; unfold NetworkSimulator.receive_command; rw [h]
  · intro h; unfold NetworkSimulator.receive_state; rw [h]
  · intro s rest h; unfold NetworkSimulator.receive_state; rw [h]
  · intro ch dest now cb
    unfold NetworkChannel.processStep
    split
    · split
      · exact Or.inl rfl
      · split
        · split
          · exact Or.inr ⟨_, rfl⟩
          · exact Or.inl rfl
        · exact Or.inl rfl
    · exact Or.inl rfl

/-- A simulator with two delivered commands and one delivered state, used
as a concrete witness input. -/
def simWithDeliveries : NetworkSimulator :=
  { NetworkSimulator.init with command_queue := [4, 5], state_queue := [9] }

/-- Witness for C6: popping the concrete nonempty command queue returns
its oldest entry, and the empty-queue case of a fresh simulator returns
None. -/
theorem c6_receive_nonblocking_witness :
    simWithDeliveries.receive_command
      = (some 4, { simWithDeliveries with command_queue := [5] })
    ∧ NetworkSimulator.init.receive_command = (none, NetworkSimulator.init) :=
  ⟨(c6_receive_nonblocking simWithDeliveries).2.1 4 [5] rfl,
   (c6_receive_nonblocking NetworkSimulator.init).1 rfl⟩

/-- C7: set_conditions is non-retroactive: the pending set (hence every
already-computed delivery time) and the running flag are untouched, and a
send issued after the update schedules with the newly clamped latency and
jitter (and is filtered by the newly clamped loss). -/
theorem c7_set_conditions_nonretroactive :
    ∀ ch l j pl bw,
      (NetworkChannel.set_conditions ch l j pl bw).pending = ch.pending
      ∧ (NetworkChannel.set_conditions ch l j pl bw).running = ch.running
      ∧ (∀ now jd, (NetworkChannel.set_conditions ch l j pl bw).deliveryTime now jd
          = now + max 0 l + (if 0 < max 0 j then jd else 0))
      ∧ (∀ now ld jd p, ¬ ld < max 0 (min 1 pl) →
          ((NetworkChannel.set_conditions ch l j pl bw).send now ld jd p).pending
            = heapPut (now + max 0 l + (if 0 < max 0 j then jd else 0), p) ch.pending) := by
  intro ch l j pl bw
  refine ⟨rfl, rfl, fun now jd => rfl, ?_⟩
  intro now ld jd p h
  unfold NetworkChannel.send
  rw [if_neg
    (show ¬ ld < (NetworkChannel.set_conditions ch l j pl bw).packet_loss from h)]
  rfl

/-- Witness for C7: after reconfiguring a channel that already holds an
envelope scheduled at time 5, the envelope is untouched and a later
surviving send schedules with the new latency 1. -/
theorem c7_set_conditions_nonretroactive_witness :
    (NetworkChannel.set_conditions
        { NetworkChannel.init with pending := [(5, 3)] } 1 0 (1/2) 0).pending = [(5, 3)]
    ∧ ((NetworkChannel.set_conditions
        { NetworkChannel.init with pending := [(5, 3)] } 1 0 (1/2) 0).send 0 (3/4) 0 2).pending
      = heapPut (0 + max 0 1 + (if (0:ℚ) < max 0 0 then 0 else 0), 2) [(5, 3)] :=
  ⟨(c7_set_conditions_nonretroactive _ 1 0 (1/2) 0).1,
   (c7_set_conditions_nonretroactive _ 1 0 (1/2) 0).2.2.2 0 (3/4) 0 2 (by norm_num)⟩

/-- A channel that was never started: running = false, as after stop(). -/
def stoppedChannel : NetworkChannel := NetworkChannel.init

/-- Counterexample to C8: send does not check self.running, so a send on a
stopped channel that survives the loss roll still inserts an envelope —
the pending set is NOT left unchanged. -/
theorem c8_counterexample_stopped_send_enqueues :
    stoppedChannel.running = false
    ∧ (stoppedChannel.send 0 0 0 7).pending ≠ stoppedChannel.pending := by
  constructor
  · rfl
  · norm_num [stoppedChannel, NetworkChannel.send, NetworkChannel.deliveryTime,
      NetworkChannel.init, heapPut]

/-- C8 amended: sending on a stopped channel raises no error (send is
total) and nothing is ever delivered while the channel is stopped (the
worker body is a no-op), and the conditions and running flag are
unchanged; but the pending set is not: a payload surviving the loss roll
is still enqueued, because send never consults running.  Only a send that
loses the loss roll leaves the channel entirely unchanged. -/
theorem c8_stopped_send_amended :
    ∀ ch : NetworkChannel, ch.running = false →
      ∀ now lossDraw jitterDraw : ℚ, ∀ payload : ℕ,
        (ch.send now lossDraw jitterDraw payload).running = false
        ∧ (ch.send now lossDraw jitterDraw payload).latency = ch.latency
        ∧ (ch.send now lossDraw jitterDraw payload).jitter = ch.jitter
        ∧ (ch.send now lossDraw jitterDraw payload).packet_loss = ch.packet_loss
        ∧ (lossDraw < ch.packet_loss → ch.send now lossDraw jitterDraw payload = ch)
        ∧ (¬ lossDraw < ch.packet_loss →
            (ch.send now lossDraw jitterDraw payload).pending
              = heapPut (ch.deliveryTime now jitterDraw, payload) ch.pending)
        ∧ (∀ dest now2 cb, ch.processStep dest now2 cb = (ch, dest)) := by
  intro ch hrun now ld jd p
  refine ⟨?_, ?_, ?_, ?_, ?_, ?_, ?_⟩
  · unfold NetworkChannel.send; split
    · exact hrun
    · exact hrun
  · unfold NetworkChannel.send; split <;> rfl
  · unfold NetworkChannel.send; split <;> rfl
  · unfold NetworkChannel.send; split <;> rfl
  · intro h; unfold NetworkChannel.send; rw [if_pos h]
  · intro h; unfold NetworkChannel.send; rw [if_neg h]
  · intro dest now2 cb
    unfold NetworkChannel.processStep
    rw [hrun]
    simp

/-- Witness for C8 amended: on the concrete stopped channel, a surviving
send keeps running = false, enqueues the envelope, and the worker body
does nothing. -/
theorem c8_stopped_send_amended_witness :
    (stoppedChannel.send 0 0 0 7).running = false
    ∧ (stoppedChannel.send 0 0 0 7).pending
        = heapPut (stoppedChannel.deliveryTime 0 0, 7) stoppedChannel.pending
    ∧ stoppedChannel.processStep [] 0 (fun _ => true) = (stoppedChannel, []) :=
  ⟨(c8_stopped_send_amended stoppedChannel rfl 0 0 0 7).1,
   (c8_stopped_send_amended stoppedChannel rfl 0 0 0 7).2.2.2.2.2.1 (by norm_num [stoppedChannel, NetworkChannel.init]),
   (c8_stopped_send_amended stoppedChannel rfl 0 0 0 7).2.2.2.2.2.2 [] 0 (fun _ => true)⟩

/-- A started channel configured with latency 0 and jitter 2 (both
clamped values are in range), loss 0. -/
def jitteryChannel : NetworkChannel :=
  (NetworkChannel.init.start).set_conditions 0 2 0 0

/-- Counterexample to C1: with latency 0 and jitter 2, the legitimate
uniform draw −1 ∈ [−jitter/2, +jitter/2] gives a send at time 10 the
scheduled delivery time 9 — the code performs no clamping, so the
scheduled time is NOT max(now, now + latency + jitter_offset) = 10 and is
strictly below the enqueue time. -/
theorem c1_counterexample_no_clamp :
    (jitteryChannel.send 10 0 (-1) 7).pending = [(9, 7)]
    ∧ (9:ℚ) ≠ max 10 (10 + jitteryChannel.latency + (-1))
    ∧ (9:ℚ) < 10
    ∧ -(jitteryChannel.jitter/2) ≤ (-1:ℚ) ∧ (-1:ℚ) ≤ jitteryChannel.jitter/2
    ∧ ¬ (0:ℚ) < jitteryChannel.packet_loss := by
  refine ⟨?_, ?_, by norm_num, ?_, ?_, ?_⟩ <;>
    norm_num [jitteryChannel, NetworkChannel.send, NetworkChannel.deliveryTime,
      NetworkChannel.set_conditions, NetworkChannel.start, NetworkChannel.init,
      heapPut]

/-- C1 amended: a send that survives the loss roll enqueues an envelope
scheduled at exactly now + latency + jitter_offset (offset = the uniform
draw when jitter > 0, else 0), with no clamping; the scheduled time always
lies within [now+latency−jitter/2, now+latency+jitter/2], and it is ≥ the
enqueue time whenever jitter ≤ 2·latency (in particular for the
jitter = latency/10 derivation used by the simulator), though not in
general. -/
theorem c1_delivery_time_amended :
    ∀ ch : NetworkChannel, ∀ now lossDraw jitterDraw : ℚ, ∀ payload : ℕ,
      0 ≤ ch.latency →
      -(ch.jitter/2) ≤ jitterDraw → jitterDraw ≤ ch.jitter/2 →
      (¬ lossDraw < ch.packet_loss →
        (ch.send now lossDraw jitterDraw payload).pending
          = heapPut (ch.deliveryTime now jitterDraw, payload) ch.pending)
      ∧ now + ch.latency - ch.jitter/2 ≤ ch.deliveryTime now jitterDraw
      ∧ ch.deliveryTime now jitterDraw ≤ now + ch.latency + ch.jitter/2
      ∧ (ch.jitter ≤ 2 * ch.latency → now ≤ ch.deliveryTime now jitterDraw) := by
  intro ch now ld jd p hl hj1 hj2
  have hj0 : 0 ≤ ch.jitter := by linarith
  refine ⟨?_, ?_, ?_, ?_⟩
  · intro h
    unfold NetworkChannel.send
    rw [if_neg h]
  · unfold NetworkChannel.deliveryTime
    split <;> linarith
  · unfold NetworkChannel.deliveryTime
    split <;> linarith
  · intro h2
    unfold NetworkChannel.deliveryTime
    split <;> linarith

/-- A started channel with the in-range conditions latency 1/10,
jitter 1/100, loss 0. -/
def smallJitterChannel : NetworkChannel :=
  NetworkChannel.init.start.set_conditions (1/10) (1/100) 0 0

/-- Witness for C1 amended, at latency 1/10, jitter 1/100 and the concrete
draw 1/200 ∈ [−jitter/2, +jitter/2]: the surviving send enqueues at the
computed delivery time, which respects the jitter band and is ≥ the send
time. -/
theorem c1_delivery_time_amended_witness :
    (smallJitterChannel.send 0 0 (1/200) 4).pending
      = heapPut (smallJitterChannel.deliveryTime 0 (1/200), 4) smallJitterChannel.pending
    ∧ 0 + smallJitterChannel.latency - smallJitterChannel.jitter/2
        ≤ smallJitterChannel.deliveryTime 0 (1/200)
    ∧ smallJitterChannel.deliveryTime 0 (1/200)
        ≤ 0 + smallJitterChannel.latency + smallJitterChannel.jitter/2
    ∧ (0:ℚ) ≤ smallJitterChannel.deliveryTime 0 (1/200) :=
  ⟨(c1_delivery_time_amended smallJitterChannel 0 0 (1/200) 4
      (by norm_num [smallJitterChannel, NetworkChannel.set_conditions,
        NetworkChannel.start, NetworkChannel.init])
      (by norm_num [smallJitterChannel, NetworkChannel.set_conditions,
        NetworkChannel.start, NetworkChannel.init])
      (by norm_num [smallJitterChannel, NetworkChannel.set_conditions,
        NetworkChannel.start, NetworkChannel.init])).1
    (by norm_num [smallJitterChannel, NetworkChannel.set_conditions,
        NetworkChannel.start, NetworkChannel.init]),
   (c1_delivery_time_amended smallJitterChannel 0 0 (1/200) 4
      (by norm_num [smallJitterChannel, NetworkChannel.set_conditions,
        NetworkChannel.start, NetworkChannel.init])
      (by norm_num [smallJitterChannel, NetworkChannel.set_conditions,
        NetworkChannel.start, NetworkChannel.init])
      (by norm_num [smallJitterChannel, NetworkChannel.set_conditions,
        NetworkChannel.start, NetworkChannel.init])).2.1,
   (c1_delivery_time_amended smallJitterChannel 0 0 (1/200) 4
      (by norm_num [smallJitterChannel, NetworkChannel.set_conditions,
        NetworkChannel.start, NetworkChannel.init])
      (by norm_num [smallJitterChannel, NetworkChannel.set_conditions,
        NetworkChannel.start, NetworkChannel.init])
      (by norm_num [smallJitterChannel, NetworkChannel.set_conditions,
        NetworkChannel.start, NetworkChannel.init])).2.2.1,
   (c1_delivery_time_amended smallJitterChannel 0 0 (1/200) 4
      (by norm_num [smallJitterChannel, NetworkChannel.set_conditions,
        NetworkChannel.start, NetworkChannel.init])
      (by norm_num [smallJitterChannel, NetworkChannel.set_conditions,
        NetworkChannel.start, NetworkChannel.init])
      (by norm_num [smallJitterChannel, NetworkChannel.set_conditions,
        NetworkChannel.start, NetworkChannel.init])).2.2.2
    (by norm_num [smallJitterChannel, NetworkChannel.set_conditions,
        NetworkChannel.start, NetworkChannel.init])⟩

/-- A started channel with zero latency, jitter and loss: every send
computes the identical delivery time now + 0. -/
def tieChannel : NetworkChannel := NetworkChannel.init.start

/-- Send payload a and then payload b at the same instant on tieChannel;
both envelopes get the identical computed delivery time 0. -/
def tieAfterSends (a b : ℕ) : NetworkChannel :=
  (tieChannel.send 0 0 0 a).send 0 0 0 b

/-- Run the worker body twice at time 0 and collect the delivered
payloads, in delivery order. -/
def tieDelivered (a b : ℕ) : List ℕ :=
  let r1 := (tieAfterSends a b).processStep [] 0 (fun _ => true)
  let r2 := r1.1.processStep r1.2 0 (fun _ => true)
  r2.2

/-- Counterexample to C2: payload 5 is sent first and payload 3 second,
both with the identical computed delivery time 0, yet delivery order is
[3, 5] — not the send order [5, 3].  The queue entry is the bare pair
(delivery_time, (data, callback)) with no insertion sequence number, so
the tie falls through to Python comparison of the (data, callback)
component. -/
theorem c2_counterexample_tie_not_send_order :
    tieDelivered 5 3 = [3, 5] ∧ tieDelivered 5 3 ≠ [5, 3] := by
  constructor <;>
    norm_num [tieDelivered, tieAfterSends, tieChannel, NetworkChannel.send,
      NetworkChannel.deliveryTime, NetworkChannel.start, NetworkChannel.init,
      NetworkChannel.processStep, heapPut, entryLE]

/-- C2 amended: the envelope carries no sequence number; among equal
delivery times the priority queue falls back to comparing the
(data, callback) component (modelled by the order on ℕ), so two messages
with the identical computed delivery time are delivered in payload order,
which coincides with send order only when the first-sent payload compares
lower; for non-comparable payloads CPython would raise a TypeError inside
put, outside this model. -/
theorem c2_tie_order_amended :
    ∀ a b : ℕ, tieDelivered a b = if b ≤ a then [b, a] else [a, b] := by
  intro a b
  by_cases h : b ≤ a <;>
    simp [tieDelivered, tieAfterSends, tieChannel, NetworkChannel.send,
      NetworkChannel.deliveryTime, NetworkChannel.start, NetworkChannel.init,
      NetworkChannel.processStep, heapPut, entryLE, h]

/-- A send whose loss roll hits returns the channel entirely unchanged. -/
theorem send_drop_eq (ch : NetworkChannel) (now ld jd : ℚ) (p : ℕ)
    (h : ld < ch.packet_loss) : ch.send now ld jd p = ch := by
  unfold NetworkChannel.send
  rw [if_pos h]

/-- The worker body does nothing on a channel that is not running. -/
theorem processStep_not_running (ch : NetworkChannel) (dest : List ℕ)
    (now : ℚ) (cb : ℕ → Bool) (h : ch.running = false) :
    ch.processStep dest now cb = (ch, dest) := by
  unfold NetworkChannel.processStep
  rw [h]
  simp

/-- The worker body does nothing on an empty pending queue. -/
theorem processStep_empty (ch : NetworkChannel) (dest : List ℕ)
    (now : ℚ) (cb : ℕ → Bool) (h : ch.pending = []) :
    ch.processStep dest now cb = (ch, dest) := by
  unfold NetworkChannel.processStep
  rw [h]
  split <;> rfl

/-- The configuration of total loss with nothing in flight and nothing
delivered: both channels at loss probability 1 with empty pending queues,
both destination queues empty. -/
def LossOneInv (sim : NetworkSimulator) : Prop :=
  sim.operator_to_robot.packet_loss = 1
  ∧ sim.robot_to_operator.packet_loss = 1
  ∧ sim.operator_to_robot.pending = []
  ∧ sim.robot_to_operator.pending = []
  ∧ sim.command_queue = []
  ∧ sim.state_queue = []

/-- Operations compatible with the loss-probability-1 scenario: every
loss roll is a genuine random.random() value (< 1), and the conditions
are not reconfigured. -/
def Op.lossOneSafe : Op → Prop
  | .sendCommand _ ld _ _ => ld < 1
  | .sendState _ ld _ _ => ld < 1
  | .setNetworkConditions _ _ _ => False
  | _ => True

/-- One lossOneSafe operation preserves LossOneInv and outputs nothing. -/
theorem lossOne_step (sim : NetworkSimulator) (o : Op)
    (hinv : LossOneInv sim) (hsafe : o.lossOneSafe) :
    LossOneInv (stepOp sim o).1 ∧ (stepOp sim o).2 = none := by
  obtain ⟨h1, h2, h3, h4, h5, h6⟩ := hinv
  cases o with
  | sendCommand now ld jd p =>
    have hdrop : sim.operator_to_robot.send now ld jd p = sim.operator_to_robot :=
      send_drop_eq _ now ld jd p (h1 ▸ hsafe)
    refine ⟨?_, rfl⟩
    show LossOneInv { sim with operator_to_robot := sim.operator_to_robot.send now ld jd p }
    rw [hdrop]
    exact ⟨h1, h2, h3, h4, h5, h6⟩
  | sendState now ld jd p =>
    have hdrop : sim.robot_to_operator.send now ld jd p = sim.robot_to_operator :=
      send_drop_eq _ now ld jd p (h2 ▸ hsafe)
    refine ⟨?_, rfl⟩
    show LossOneInv { sim with robot_to_operator := sim.robot_to_operator.send now ld jd p }
    rw [hdrop]
    exact ⟨h1, h2, h3, h4, h5, h6⟩
  | workCommand now =>
    have hstep := processStep_empty sim.operator_to_robot sim.command_queue now
      (fun _ => true) h3
    refine ⟨?_, rfl⟩
    show LossOneInv (sim.stepCommandWorker now)
    unfold NetworkSimulator.stepCommandWorker
    rw [hstep]
    exact ⟨h1, h2, h3, h4, h5, h6⟩
  | workState now =>
    have hstep := processStep_empty sim.robot_to_operator sim.state_queue now
      (fun _ => true) h4
    refine ⟨?_, rfl⟩
    show LossOneInv (sim.stepStateWorker now)
    unfold NetworkSimulator.stepStateWorker
    rw [hstep]
    exact ⟨h1, h2, h3, h4, h5, h6⟩
  | receiveCommand =>
    have hrc : sim.receive_command = (none, sim) := by
      unfold NetworkSimulator.receive_command
      rw [h5]
    constructor
    · show LossOneInv (sim.receive_command).2
      rw [hrc]
      exact ⟨h1, h2, h3, h4, h5, h6⟩
    · show (sim.receive_command).1 = none
      rw [hrc]
  | receiveState =>
    have hrs : sim.receive_state = (none, sim) := by
      unfold NetworkSimulator.receive_state
      rw [h6]
    constructor
    · show LossOneInv (sim.receive_state).2
      rw [hrs]
      exact ⟨h1, h2, h3, h4, h5, h6⟩
    · show (sim.receive_state).1 = none
      rw [hrs]
  | setNetworkConditions l pl bw => exact absurd hsafe (by simp [Op.lossOneSafe])
  | shutdown => exact ⟨⟨h1, h2, h3, h4, h5, h6⟩, rfl⟩

/-- C3: a send whose uniform loss roll comes in below the configured loss
probability is a silent no-op (no envelope, no error, channel unchanged),
and with loss probability 1.0 any sequence of sends, worker iterations,
receives and shutdowns starting from the all-empty state delivers
nothing: the invariant (empty pending queues, empty destination queues)
persists and every receive reports empty. -/
theorem c3_loss_drop_silent :
    (∀ (ch : NetworkChannel) (now ld jd : ℚ) (p : ℕ),
      ld < ch.packet_loss → ch.send now ld jd p = ch)
    ∧ (∀ (sim : NetworkSimulator) (ops : List Op),
        LossOneInv sim → (∀ o ∈ ops, o.lossOneSafe) →
          LossOneInv (runOps sim ops).1
          ∧ ((runOps sim ops).2.all fun o => o.isNone) = true) := by
  constructor
  · exact send_drop_eq
  · intro sim ops
    induction ops generalizing sim with
    | nil => exact fun hinv _ => ⟨hinv, rfl⟩
    | cons o os ih =>
      intro hinv hsafe
      have hstep := lossOne_step sim o hinv (hsafe o (List.mem_cons_self o os))
      have hrest := ih (stepOp sim o).1 hstep.1
        (fun x hx => hsafe x (List.mem_cons_of_mem o hx))
      refine ⟨hrest.1, ?_⟩
      simp only [runOps, List.all_cons, hstep.2, hrest.2, Option.isNone_none,
        Bool.true_and]

/-- The simulator configured to loss probability 1.0 on both channels. -/
def simLossOne : NetworkSimulator :=
  NetworkSimulator.init.set_network_conditions 0 1 0

/-- A concrete workload for the loss-1 scenario: sends with genuine
loss rolls, worker iterations and receives on both directions, then
shutdown. -/
def opsLossOne : List Op :=
  [Op.sendCommand 0 0 0 5, Op.workCommand 1, Op.receiveCommand,
   Op.sendState 0 (1/2) 0 9, Op.workState 1, Op.receiveState, Op.shutdown]

/-- Witness for C3: running the concrete loss-1 workload leaves the
all-empty invariant intact and every observed receive output is None. -/
theorem c3_loss_drop_silent_witness :
    LossOneInv (runOps simLossOne opsLossOne).1
    ∧ ((runOps simLossOne opsLossOne).2.all fun o => o.isNone) = true :=
  c3_loss_drop_silent.2 simLossOne opsLossOne
    (by refine ⟨?_, ?_, rfl, rfl, rfl, rfl⟩ <;>
      norm_num [simLossOne, NetworkSimulator.set_network_conditions,
        NetworkSimulator.init, NetworkChannel.set_conditions,
        NetworkChannel.start, NetworkChannel.init])
    (by intro o ho
        fin_cases ho <;> norm_num [Op.lossOneSafe, opsLossOne])

/-- The worker-iteration operations. -/
def Op.isWorker : Op → Bool
  | .workCommand _ => true
  | .workState _ => true
  | _ => false

/-- C4: after shutdown both channels are stopped, so any number of worker
iterations at any clock readings changes nothing — pending envelopes are
never delivered — while both destination queues keep exactly the payloads
delivered before shutdown, and the receives still pop them in order. -/
theorem c4_shutdown_no_further_delivery :
    ∀ (sim : NetworkSimulator) (ops : List Op),
      (∀ o ∈ ops, o.isWorker = true) →
        (runOps sim.shutdown ops).1 = sim.shutdown
        ∧ sim.shutdown.command_queue = sim.command_queue
        ∧ sim.shutdown.state_queue = sim.state_queue
        ∧ (sim.shutdown.receive_command).1 = sim.command_queue.head?
        ∧ (sim.shutdown.receive_state).1 = sim.state_queue.head? := by
  intro sim ops hops
  have hstep : ∀ o : Op, o.isWorker = true →
      stepOp sim.shutdown o = (sim.shutdown, none) := by
    intro o ho
    cases o with
    | workCommand now =>
      have h := processStep_not_running sim.shutdown.operator_to_robot
        sim.shutdown.command_queue now (fun _ => true) rfl
      show (sim.shutdown.stepCommandWorker now, none) = (sim.shutdown, none)
      unfold NetworkSimulator.stepCommandWorker
      rw [h]
    | workState now =>
      have h := processStep_not_running sim.shutdown.robot_to_operator
        sim.shutdown.state_queue now (fun _ => true) rfl
      show (sim.shutdown.stepStateWorker now, none) = (sim.shutdown, none)
      unfold NetworkSimulator.stepStateWorker
      rw [h]
    | sendCommand now ld jd p => exact absurd ho (by simp [Op.isWorker])
    | sendState now ld jd p => exact absurd ho (by simp [Op.isWorker])
    | receiveCommand => exact absurd ho (by simp [Op.isWorker])
    | receiveState => exact absurd ho (by simp [Op.isWorker])
    | setNetworkConditions l pl bw => exact absurd ho (by simp [Op.isWorker])
    | shutdown => exact absurd ho (by simp [Op.isWorker])
  refine ⟨?_, rfl, rfl, ?_, ?_⟩
  · induction ops with
    | nil => rfl
    | cons o os ih =>
      show (runOps (stepOp sim.shutdown o).1 os).1 = sim.shutdown
      rw [hstep o (hops o (List.mem_cons_self o os))]
      exact ih fun x hx => hops x (List.mem_cons_of_mem o hx)
  · show (sim.shutdown.receive_command).1 = sim.command_queue.head?
    unfold NetworkSimulator.receive_command
    rcases h : sim.command_queue with _ | ⟨c, rest⟩
    · show (match sim.shutdown.command_queue with
        | [] => ((none : Option ℕ), sim.shutdown)
        | c :: rest => (some c, { sim.shutdown with command_queue := rest })).1
          = List.head? []
      rw [show sim.shutdown.command_queue = [] from h]
      rfl
    · show (match sim.shutdown.command_queue with
        | [] => ((none : Option ℕ), sim.shutdown)
        | c :: rest => (some c, { sim.shutdown with command_queue := rest })).1
          = List.head? (c :: rest)
      rw [show sim.shutdown.command_queue = c :: rest from h]
      rfl
  · show (sim.shutdown.receive_state).1 = sim.state_queue.head?
    unfold NetworkSimulator.receive_state
    rcases h : sim.state_queue with _ | ⟨s, rest⟩
    · show (match sim.shutdown.state_queue with
        | [] => ((none : Option ℕ), sim.shutdown)
        | s :: rest => (some s, { sim.shutdown with state_queue := rest })).1
          = List.head? []
      rw [show sim.shutdown.state_queue = [] from h]
      rfl
    · show (match sim.shutdown.state_queue with
        | [] => ((none : Option ℕ), sim.shutdown)
        | s :: rest => (some s, { sim.shutdown with state_queue := rest })).1
          = List.head? (s :: rest)
      rw [show sim.shutdown.state_queue = s :: rest from h]
      rfl

/-- A simulator with an envelope still pending on the operator→robot
channel and one already-delivered command. -/
def simBusy : NetworkSimulator :=
  { NetworkSimulator.init with
    operator_to_robot := { NetworkChannel.init.start with pending := [(0, 3)] }
    command_queue := [8] }

/-- Witness for C4: shutting simBusy down, then running both workers at a
time well past the pending deadline, changes nothing, and the delivered
command 8 is still retrievable. -/
theorem c4_shutdown_no_further_delivery_witness :
    (runOps simBusy.shutdown [Op.workCommand 5, Op.workState 5]).1 = simBusy.shutdown
    ∧ (simBusy.shutdown.receive_command).1 = some 8 :=
  ⟨(c4_shutdown_no_further_delivery simBusy [Op.workCommand 5, Op.workState 5]
      (by intro o ho; fin_cases ho <;> rfl)).1,
   (c4_shutdown_no_further_delivery simBusy [Op.workCommand 5, Op.workState 5]
      (by intro o ho; fin_cases ho <;> rfl)).2.2.2.1⟩

/-- Draining lemma: on a running channel whose pending envelopes are all
due, running the worker body once per envelope empties the queue and
appends exactly the payloads whose sink callback succeeds, in queue
order — envelopes whose callback raises are consumed but not delivered,
and do not prevent the later ones from being delivered. -/
theorem processMany_drain :
    ∀ (l : List Entry) (ch : NetworkChannel) (dest : List ℕ) (now : ℚ)
      (cb : ℕ → Bool),
      ch.running = true → ch.pending = l → (∀ e ∈ l, e.1 ≤ now) →
      ch.processMany dest now cb l.length
        = ({ ch with pending := [] }, dest ++ (l.map Prod.snd).filter cb) := by
  intro l
  induction l with
  | nil =>
    intro ch dest now cb hrun hp hall
    have hch : ({ ch with pending := ([] : List Entry) }) = ch := by
      conv_lhs => rw [← hp]
    show (ch, dest) = _
    rw [hch]
    simp
  | cons e rest ih =>
    intro ch dest now cb hrun hp hall
    obtain ⟨dt, p⟩ := e
    have hdt : dt ≤ now := hall (dt, p) (List.mem_cons_self _ _)
    have hstep : ch.processStep dest now cb =
        if cb p then ({ ch with pending := rest }, dest ++ [p])
        else ({ ch with pending := rest }, dest) := by
      unfold NetworkChannel.processStep
      rw [hp, hrun]
      simp [hdt]
    have hrest : ∀ dest2 : List ℕ,
        NetworkChannel.processMany { ch with pending := rest } dest2 now cb
            rest.length
          = ({ ch with pending := ([] : List Entry) },
             dest2 ++ (rest.map Prod.snd).filter cb) := by
      intro dest2
      exact ih { ch with pending := rest } dest2 now cb hrun rfl
        fun x hx => hall x (List.mem_cons_of_mem _ hx)
    show NetworkChannel.processMany ch dest now cb (rest.length + 1) = _
    rw [NetworkChannel.processMany, hstep]
    by_cases hcb : cb p = true
    · rw [if_pos hcb]
      rw [hrest (dest ++ [p])]
      simp [List.filter_cons, hcb]
    · rw [if_neg hcb]
      rw [hrest dest]
      simp [List.filter_cons, hcb]

/-- C9: a sink exception is contained at the worker boundary: the worker
body never clears the running flag (first conjunct); when the due
callback of the due envelope fails, the envelope is consumed, the destination
queue is untouched and the step otherwise completes normally (second
conjunct); and with every pending envelope due, iterating the worker
drains the whole queue, delivering exactly the payloads whose callback
succeeds — later envelopes are still delivered after a failure (third
conjunct). -/
theorem c9_sink_exception_contained :
    (∀ ch dest now cb,
      (NetworkChannel.processStep ch dest now cb).1.running = ch.running)
    ∧ (∀ (ch : NetworkChannel) (dest : List ℕ) (now : ℚ) (cb : ℕ → Bool)
        (dt : ℚ) (p : ℕ) (rest : List Entry),
        ch.running = true → ch.pending = (dt, p) :: rest → dt ≤ now →
        cb p = false →
        ch.processStep dest now cb = ({ ch with pending := rest }, dest))
    ∧ (∀ (ch : NetworkChannel) (dest : List ℕ) (now : ℚ) (cb : ℕ → Bool),
        ch.running = true → (∀ e ∈ ch.pending, e.1 ≤ now) →
        ch.processMany dest now cb ch.pending.length
          = ({ ch with pending := [] },
             dest ++ (ch.pending.map Prod.snd).filter cb)) := by
  refine ⟨?_, ?_, ?_⟩
  · intro ch dest now cb
    unfold NetworkChannel.processStep
    split
    · split
      · rfl
      · split
        · split <;> rfl
        · rfl
    · rfl
  · intro ch dest now cb dt p rest hrun hp hdt hcb
    unfold NetworkChannel.processStep
    rw [hp, hrun]
    simp [hdt, hcb]
  · intro ch dest now cb hrun hall
    exact processMany_drain ch.pending ch dest now cb hrun rfl hall

/-- A running channel with three due envelopes. -/
def chThreePending : NetworkChannel :=
  { NetworkChannel.init.start with pending := [(0, 1), (0, 2), (0, 3)] }

/-- Witness for C9: with the sink raising exactly on payload 2, draining
the three due envelopes delivers 1 and 3 — the failure on 2 does not stop
the deliveries after it — and empties the queue. -/
theorem c9_sink_exception_contained_witness :
    chThreePending.processMany [] 0 (fun p => p != 2) 3
      = ({ chThreePending with pending := [] }, [1, 3]) :=
  c9_sink_exception_contained.2.2 chThreePending [] 0 (fun p => p != 2) rfl
    (by intro e he
        simp only [chThreePending, NetworkChannel.start, NetworkChannel.init,
          List.mem_cons, List.not_mem_nil, or_false] at he
        rcases he with h | h | h <;> rw [h])

/-- Erase the stored bandwidth of a channel. -/
def scrubChannel (ch : NetworkChannel) : NetworkChannel :=
  { ch with bandwidth := none }

/-- Erase the stored bandwidth of both channels of a simulator. -/
def scrubSim (sim : NetworkSimulator) : NetworkSimulator :=
  { sim with
    operator_to_robot := scrubChannel sim.operator_to_robot
    robot_to_operator := scrubChannel sim.robot_to_operator }

/-- Erase the bandwidth argument of an operation. -/
def scrubOp : Op → Op
  | .setNetworkConditions l pl _ => .setNetworkConditions l pl 0
  | o => o

/-- send reads no bandwidth, so it commutes with erasing it. -/
theorem scrub_send (ch : NetworkChannel) (now ld jd : ℚ) (p : ℕ) :
    (scrubChannel ch).send now ld jd p = scrubChannel (ch.send now ld jd p) := by
  by_cases h : ld < ch.packet_loss <;>
    simp [NetworkChannel.send, scrubChannel, NetworkChannel.deliveryTime, h]

/-- The worker body reads no bandwidth, so it commutes with erasing it. -/
theorem scrub_processStep (ch : NetworkChannel) (dest : List ℕ) (now : ℚ)
    (cb : ℕ → Bool) :
    (scrubChannel ch).processStep dest now cb
      = (scrubChannel (ch.processStep dest now cb).1,
         (ch.processStep dest now cb).2) := by
  unfold NetworkChannel.processStep
  rcases hp : ch.pending with _ | ⟨⟨dt, p⟩, rest⟩
  · by_cases hr : ch.running <;> simp [scrubChannel, hp, hr]
  · by_cases hr : ch.running
    · by_cases hdt : dt ≤ now
      · by_cases hcb : cb p <;> simp [scrubChannel, hp, hr, hdt, hcb]
      · simp only [scrubChannel, hp, hr, if_true, if_neg hdt]
    · simp [scrubChannel, hp, hr]

/-- One scrubbed operation from a scrubbed state tracks the original
operation up to erasing bandwidth, with identical observable output. -/
theorem scrub_stepOp (s : NetworkSimulator) (o : Op) :
    scrubSim (stepOp (scrubSim s) (scrubOp o)).1 = scrubSim (stepOp s o).1
    ∧ (stepOp (scrubSim s) (scrubOp o)).2 = (stepOp s o).2 := by
  cases o with
  | sendCommand now ld jd p =>
    constructor
    · show scrubSim ((scrubSim s).send_command now ld jd p)
        = scrubSim (s.send_command now ld jd p)
      unfold NetworkSimulator.send_command
      show scrubSim { scrubSim s with
          operator_to_robot := (scrubChannel s.operator_to_robot).send now ld jd p }
        = _
      rw [scrub_send]
      rfl
    · rfl
  | sendState now ld jd p =>
    constructor
    · show scrubSim ((scrubSim s).send_state now ld jd p)
        = scrubSim (s.send_state now ld jd p)
      unfold NetworkSimulator.send_state
      show scrubSim { scrubSim s with
          robot_to_operator := (scrubChannel s.robot_to_operator).send now ld jd p }
        = _
      rw [scrub_send]
      rfl
    · rfl
  | workCommand now =>
    constructor
    · show scrubSim ((scrubSim s).stepCommandWorker now)
        = scrubSim (s.stepCommandWorker now)
      unfold NetworkSimulator.stepCommandWorker
      show scrubSim { scrubSim s with
          operator_to_robot :=
            ((scrubChannel s.operator_to_robot).processStep s.command_queue now
              (fun _ => true)).1
          command_queue :=
            ((scrubChannel s.operator_to_robot).processStep s.command_queue now
              (fun _ => true)).2 }
        = _
      rw [scrub_processStep]
      rfl
    · rfl
  | workState now =>
    constructor
    · show scrubSim ((scrubSim s).stepStateWorker now)
        = scrubSim (s.stepStateWorker now)
      unfold NetworkSimulator.stepStateWorker
      show scrubSim { scrubSim s with
          robot_to_operator :=
            ((scrubChannel s.robot_to_operator).processStep s.state_queue now
              (fun _ => true)).1
          state_queue :=
            ((scrubChannel s.robot_to_operator).processStep s.state_queue now
              (fun _ => true)).2 }
        = _
      rw [scrub_processStep]
      rfl
    · rfl
  | receiveCommand =>
    rcases hq : s.command_queue with _ | ⟨c, rest⟩ <;>
      constructor <;>
        simp [stepOp, scrubOp, NetworkSimulator.receive_command, scrubSim,
          scrubChannel, hq]
  | receiveState =>
    rcases hq : s.state_queue with _ | ⟨c, rest⟩ <;>
      constructor <;>
        simp [stepOp, scrubOp, NetworkSimulator.receive_state, scrubSim,
          scrubChannel, hq]
  | setNetworkConditions l pl bw =>
    constructor
    · show scrubSim ((scrubSim s).set_network_conditions l pl 0)
        = scrubSim (s.set_network_conditions l pl bw)
      rfl
    · rfl
  | shutdown =>
    constructor
    · show scrubSim ((scrubSim s).shutdown) = scrubSim s.shutdown
      rfl
    · rfl

/-- C10: bandwidth never influences observable behaviour.  Two runs whose
start states agree on everything except the stored bandwidth and whose
operation lists agree on everything except the bandwidth argument of
set_network_conditions produce final states that again agree on
everything except bandwidth — same loss decisions, same pending sets with
the same computed delivery times, same destination queues — and the
receive outputs observed along the two runs are identical. -/
theorem c10_bandwidth_noninterference :
    ∀ (s1 s2 : NetworkSimulator) (ops1 ops2 : List Op),
      scrubSim s1 = scrubSim s2 → ops1.map scrubOp = ops2.map scrubOp →
      scrubSim (runOps s1 ops1).1 = scrubSim (runOps s2 ops2).1
      ∧ (runOps s1 ops1).2 = (runOps s2 ops2).2 := by
  intro s1 s2 ops1
  induction ops1 generalizing s1 s2 with
  | nil =>
    intro ops2 hs hops
    have h2 : ops2 = [] := by
      cases ops2 with
      | nil => rfl
      | cons o os => exact absurd hops (by simp)
    subst h2
    exact ⟨hs, rfl⟩
  | cons o1 os1 ih =>
    intro ops2 hs hops
    cases ops2 with
    | nil => exact absurd hops (by simp)
    | cons o2 os2 =>
      simp only [List.map_cons, List.cons.injEq] at hops
      obtain ⟨ho, hos⟩ := hops
      have hstate : scrubSim (stepOp s1 o1).1 = scrubSim (stepOp s2 o2).1 := by
        rw [← (scrub_stepOp s1 o1).1, ← (scrub_stepOp s2 o2).1, hs, ho]
      have hout : (stepOp s1 o1).2 = (stepOp s2 o2).2 := by
        rw [← (scrub_stepOp s1 o1).2, ← (scrub_stepOp s2 o2).2, hs, ho]
      have hrest := ih (stepOp s1 o1).1 (stepOp s2 o2).1 os2 hstate hos
      constructor
      · show scrubSim (runOps (stepOp s1 o1).1 os1).1
            = scrubSim (runOps (stepOp s2 o2).1 os2).1
        exact hrest.1
      · show (stepOp s1 o1).2 :: (runOps (stepOp s1 o1).1 os1).2
          = (stepOp s2 o2).2 :: (runOps (stepOp s2 o2).1 os2).2
        rw [hout, hrest.2]

/-- A concrete workload configuring bandwidth 5. -/
def opsBwFive : List Op :=
  [Op.setNetworkConditions 1 0 5, Op.sendCommand 0 0 0 4,
   Op.workCommand 2, Op.receiveCommand]

/-- The same workload configuring bandwidth 7 instead. -/
def opsBwSeven : List Op :=
  [Op.setNetworkConditions 1 0 7, Op.sendCommand 0 0 0 4,
   Op.workCommand 2, Op.receiveCommand]

/-- Witness for C10: the two concrete runs that differ only in the
configured bandwidth end in states identical up to the stored bandwidth
and observe identical receive outputs. -/
theorem c10_bandwidth_noninterference_witness :
    scrubSim (runOps NetworkSimulator.init opsBwFive).1
      = scrubSim (runOps NetworkSimulator.init opsBwSeven).1
    ∧ (runOps NetworkSimulator.init opsBwFive).2
      = (runOps NetworkSimulator.init opsBwSeven).2 :=
  c10_bandwidth_noninterference NetworkSimulator.init NetworkSimulator.init
    opsBwFive opsBwSeven rfl rfl
